import Mathlib

/-
Verification of the go-proc-sandbox repository: a shallow embedding of the
sandbox package (Config resolution, the three platform Run bodies, the
cgroup setup writes, and Cleanup) together with theorems settling the
frozen claims about the natural-language specification.

Go machine integers (int, int64, time.Duration) are modelled as Int; the
one place the source multiplies (the CPU quota computation) goes through
an explicit two-complement 64-bit wrap.  File-system and kernel effects
are modelled as explicit data: a Run body is a pure function from the
resolved configuration plus an environment record (the nondeterministic
outcomes of the OS calls it makes) to the Result it builds and the error
it returns; writes are collected in lists.
-/

namespace GoProcSandbox

/-- Two-complement wrap of an Int into the signed 64-bit range, used where
the Go source does arithmetic on int/int64 values. -/
def wrap64 (x : Int) : Int := (x + 2 ^ 63) % 2 ^ 64 - 2 ^ 63

/-- Embeds struct Config from src/sandbox.go (lines 10-46).  CPULimit is a
Go int, MemoryLimit an int64, Timeout a time.Duration (int64 nanoseconds),
MaxProcesses an int: all become Int.  The three io.Reader/io.Writer stream
bindings are modelled as Option Nat: none is a nil interface, some n is a
caller-supplied stream identified by n (the code only branches on nil-ness
and stores the binding). -/
structure Config where
  CPULimit : Int
  MemoryLimit : Int
  Timeout : Int
  WorkingDir : String
  AllowedDirs : List String
  ReadOnlyDirs : List String
  Env : List String
  Stdin : Option Nat
  Stdout : Option Nat
  Stderr : Option Nat
  NetworkAccess : Bool
  MaxProcesses : Int
deriving DecidableEq, Repr

/-- Embeds the Go zero value of struct Config, the value of `&Config{}`
allocated when the caller passes nil (sandbox_linux.go line 27,
sandbox_windows.go line 74, the darwin fallback file line 22). -/
def Config.zero : Config :=
  { CPULimit := 0, MemoryLimit := 0, Timeout := 0, WorkingDir := "",
    AllowedDirs := [], ReadOnlyDirs := [], Env := [], Stdin := none,
    Stdout := none, Stderr := none, NetworkAccess := false,
    MaxProcesses := 0 }

/-- Nanoseconds in 30 * time.Second, the Timeout default. -/
def thirtySeconds : Int := 30 * 1000000000

/-- Embeds the defaulting block of NewLinuxSandbox
(src/sandbox_linux.go lines 30-42): each zero-valued limit field is
overwritten with its default, in place through the caller pointer. -/
def resolveLinuxConfig (c : Config) : Config :=
  let c := if c.CPULimit = 0 then { c with CPULimit := 100 } else c
  let c := if c.MemoryLimit = 0 then { c with MemoryLimit := 512 * 1024 * 1024 } else c
  let c := if c.Timeout = 0 then { c with Timeout := thirtySeconds } else c
  let c := if c.MaxProcesses = 0 then { c with MaxProcesses := 50 } else c
  c

/-- Embeds the defaulting block of NewWindowsSandbox
(src/sandbox_windows.go lines 77-89), textually identical to the Linux
one. -/
def resolveWindowsConfig (c : Config) : Config :=
  let c := if c.CPULimit = 0 then { c with CPULimit := 100 } else c
  let c := if c.MemoryLimit = 0 then { c with MemoryLimit := 512 * 1024 * 1024 } else c
  let c := if c.Timeout = 0 then { c with Timeout := thirtySeconds } else c
  let c := if c.MaxProcesses = 0 then { c with MaxProcesses := 50 } else c
  c

/-- Embeds the defaulting block of NewDefaultSandbox (the darwin/POSIX
fallback file, lines 25-37), textually identical to the Linux one. -/
def resolveDefaultConfig (c : Config) : Config :=
  let c := if c.CPULimit = 0 then { c with CPULimit := 100 } else c
  let c := if c.MemoryLimit = 0 then { c with MemoryLimit := 512 * 1024 * 1024 } else c
  let c := if c.Timeout = 0 then { c with Timeout := thirtySeconds } else c
  let c := if c.MaxProcesses = 0 then { c with MaxProcesses := 50 } else c
  c

/-- Embeds Result from src/sandbox.go (lines 49-64).  The Error field
(a Go error interface value) is Option String: none is nil, some m is an
error whose message is m. -/
structure Result where
  ExitCode : Int := 0
  ExecutionTime : Int := 0
  TimedOut : Bool := false
  MemoryExceeded : Bool := false
  Error : Option String := none
deriving DecidableEq, Repr

/-- Outcome of a constructor call: the state of the caller-supplied Config
object after the call (its fields are written through the pointer by the
defaulting block; none when the caller passed nil and so holds no object)
and the config the new sandbox stores. -/
structure NewSandboxResult where
  callerConfig : Option Config
  storedConfig : Config
deriving DecidableEq, Repr

/-- Embeds NewLinuxSandbox (src/sandbox_linux.go lines 25-53) as seen by
the caller: nil is replaced by a fresh zero Config, defaults are written
into the (shared) struct, and the sandbox keeps that same struct. -/
def NewLinuxSandbox (oc : Option Config) : NewSandboxResult :=
  let config := resolveLinuxConfig (oc.getD Config.zero)
  { callerConfig := oc.map resolveLinuxConfig, storedConfig := config }

/-- Embeds NewWindowsSandbox (src/sandbox_windows.go lines 72-96) as seen
by the caller, identically to the Linux constructor. -/
def NewWindowsSandbox (oc : Option Config) : NewSandboxResult :=
  let config := resolveWindowsConfig (oc.getD Config.zero)
  { callerConfig := oc.map resolveWindowsConfig, storedConfig := config }

/-- Embeds NewDefaultSandbox (darwin/POSIX fallback file lines 20-44) as
seen by the caller, identically to the Linux constructor. -/
def NewDefaultSandbox (oc : Option Config) : NewSandboxResult :=
  let config := resolveDefaultConfig (oc.getD Config.zero)
  { callerConfig := oc.map resolveDefaultConfig, storedConfig := config }

/-- Cgroup v2 control-file writes performed by setupCgroup: the value
written to memory.max, the quota/period pair written to cpu.max, and the
value written to pids.max. -/
inductive CgroupWrite where
  | memoryMax (bytes : Int)
  | cpuMax (quotaMicros : Int) (periodMicros : Int)
  | pidsMax (count : Int)
deriving DecidableEq, Repr

/-- Environment of one setupCgroup call: whether /proc/mounts showed a
cgroup2 filesystem at construction, the pid of the enforcing process (the
cgroup name is derived from it), and whether MkdirAll succeeded. -/
structure CgroupSetupEnv where
  useCgroupV2 : Bool
  pid : Nat
  mkdirOk : Bool
deriving DecidableEq, Repr

/-- Embeds LinuxSandbox.setupCgroup (src/sandbox_linux.go lines 66-101):
returns the cgroupPath field it stores and the list of control-file writes
it performs, in program order.  The path is assigned before MkdirAll, so
it stays set even when directory creation fails; every WriteFile error is
discarded by the source. -/
def setupCgroup (c : Config) (env : CgroupSetupEnv) : String × List CgroupWrite :=
  let cgroupName := "go-proc-sandbox-" ++ toString env.pid
  if env.useCgroupV2 then
    let path := "/sys/fs/cgroup/" ++ cgroupName
    if env.mkdirOk then
      let memWrites := if c.MemoryLimit > 0 then [CgroupWrite.memoryMax c.MemoryLimit] else []
      let cpuWrites := if c.CPULimit > 0 && c.CPULimit < 100 then
          [CgroupWrite.cpuMax (wrap64 (c.CPULimit * 1000)) 100000] else []
      let pidWrites := if c.MaxProcesses > 0 then [CgroupWrite.pidsMax c.MaxProcesses] else []
      (path, memWrites ++ cpuWrites ++ pidWrites)
    else (path, [])
  else ("", [])

/-- Substring test over character lists, structural recursion on the
haystack. -/
def charSeqContains : List Char → List Char → Bool
  | [], needle => needle.isEmpty
  | c :: rest, needle => List.isPrefixOf needle (c :: rest) || charSeqContains rest needle

/-- Embeds Go strings.Contains as used on the memory.events data
(src/sandbox_linux.go line 188): true exactly when sub occurs as a
contiguous substring of s (and always for the empty sub). -/
def goStringsContains (s sub : String) : Bool := charSeqContains s.toList sub.toList

/-- The part of a syscall.WaitStatus the POSIX fallback Run inspects:
whether the process was signal-terminated, and by which signal number. -/
structure WaitStatus where
  signaled : Bool
  signal : Int
deriving DecidableEq, Repr

/-- Signal number of syscall.SIGKILL. -/
def SIGKILL : Int := 9

/-- Classification of the cmd.Wait error as tested by the Linux Run body
(src/sandbox_linux.go lines 174-182): nil, an exec.ExitError whose Sys()
is a syscall.WaitStatus with the given ExitStatus(), or anything else. -/
inductive WaitErr where
  | ok
  | exitErr (status : Int)
  | otherErr
deriving DecidableEq, Repr

/-- Environment of one LinuxSandbox.Run call: the outcomes of the OS
interactions the body makes, in order.  memoryEvents is the content of the
memory.events read, none when the read fails. -/
structure LinuxRunEnv where
  useCgroupV2 : Bool
  pid : Nat
  mkdirOk : Bool
  startErr : Option String
  elapsed : Int
  deadlineExceeded : Bool
  processStateNonNil : Bool
  waitErr : WaitErr
  memoryEvents : Option String
deriving DecidableEq, Repr

/-- Embeds LinuxSandbox.Run (src/sandbox_linux.go lines 104-195): the
Result it builds and the error it returns.  The cgroup.procs write and the
SIGKILL on timeout have their errors discarded by the source and alter no
Result field, so they do not appear in the state. -/
def linuxRun (c : Config) (env : LinuxRunEnv) : Result × Option String :=
  let setup := setupCgroup c
    { useCgroupV2 := env.useCgroupV2, pid := env.pid, mkdirOk := env.mkdirOk }
  let cgroupPath := setup.1
  match env.startErr with
  | some e => ({ Error := some ("failed to start process: " ++ e) }, some e)
  | none =>
    let result : Result := { ExecutionTime := env.elapsed }
    let result := if env.deadlineExceeded then
        { result with TimedOut := true, Error := some "execution timeout exceeded" }
      else result
    let result := if env.processStateNonNil then
        match env.waitErr with
        | WaitErr.exitErr status => { result with ExitCode := status }
        | WaitErr.ok => { result with ExitCode := 0 }
        | WaitErr.otherErr => result
      else result
    let result := if cgroupPath != "" && env.useCgroupV2 then
        match env.memoryEvents with
        | some data =>
          if goStringsContains data "oom_kill" then { result with MemoryExceeded := true }
          else result
        | none => result
      else result
    (result, none)

/-- Environment of one DefaultSandbox.Run call on the POSIX fallback path.
exitCode is the value of cmd.ProcessState.ExitCode(); sysWaitStatus is the
result of the type assertion of ProcessState.Sys() to syscall.WaitStatus. -/
structure DefaultRunEnv where
  startErr : Option String
  elapsed : Int
  deadlineExceeded : Bool
  processStateNonNil : Bool
  exitCode : Int
  sysWaitStatus : Option WaitStatus
deriving DecidableEq, Repr

/-- Embeds DefaultSandbox.Run (darwin/POSIX fallback file lines 47-143).
The post-start Setrlimit calls (its lines 94-113) have their errors
discarded and alter no Result field, so they do not appear in the state. -/
def defaultRun (_c : Config) (env : DefaultRunEnv) : Result × Option String :=
  match env.startErr with
  | some e => ({ Error := some ("failed to start process: " ++ e) }, some e)
  | none =>
    let result : Result := { ExecutionTime := env.elapsed }
    let result := if env.deadlineExceeded then
        { result with TimedOut := true, Error := some "execution timeout exceeded" }
      else result
    let result := if env.processStateNonNil then
        let result := { result with ExitCode := env.exitCode }
        match env.sysWaitStatus with
        | some ws =>
          if ws.signaled && ws.signal == SIGKILL then
            if !result.TimedOut then { result with MemoryExceeded := true } else result
          else result
        | none => result
      else result
    (result, none)

/-- State of one WindowsSandbox instance together with the ghost set of
job-object handles currently open in the process: jobHandle is the struct
field (0 when unset), openHandles lists every handle value returned by
CreateJobObjectW and not yet passed to CloseHandle. -/
structure WinState where
  jobHandle : Nat
  openHandles : List Nat
deriving DecidableEq, Repr

/-- Embeds the WindowsSandbox zero state at construction. -/
def WinState.init : WinState := { jobHandle := 0, openHandles := [] }

/-- Environment of one WindowsSandbox.Run call: createRet is the handle
value returned by CreateJobObjectW (0 on failure, a fresh nonzero value on
success); the rest are the outcomes of the remaining OS calls in order. -/
structure WinRunEnv where
  createRet : Nat
  setInfoOk : Bool
  startErr : Option String
  assignOk : Bool
  elapsed : Int
  deadlineExceeded : Bool
  processStateNonNil : Bool
  exitCode : Int
deriving DecidableEq, Repr

/-- Embeds WindowsSandbox.createJobObject (src/sandbox_windows.go lines
99-138): on success the new handle is stored in jobHandle, overwriting any
previous value without closing it; on SetInformationJobObject failure the
new handle is closed but jobHandle keeps pointing at it. -/
def winCreateJobObject (s : WinState) (env : WinRunEnv) : WinState × Option String :=
  if env.createRet = 0 then (s, some "failed to create job object")
  else
    let s1 : WinState :=
      { jobHandle := env.createRet, openHandles := env.createRet :: s.openHandles }
    if env.setInfoOk then (s1, none)
    else ({ s1 with openHandles := s1.openHandles.erase s1.jobHandle },
          some "failed to set job object limits")

/-- Embeds WindowsSandbox.Run (src/sandbox_windows.go lines 141-223):
creates a fresh job object on every call, then spawns, assigns, waits and
classifies.  Returns the evolved state, the Result and the returned
error. -/
def winRun (_c : Config) (s : WinState) (env : WinRunEnv) : WinState × Result × Option String :=
  match winCreateJobObject s env with
  | (s1, some e) => (s1, { Error := some e }, some e)
  | (s1, none) =>
    match env.startErr with
    | some e => (s1, { Error := some ("failed to start process: " ++ e) }, some e)
    | none =>
      if !env.assignOk then
        (s1, { Error := some "failed to assign process to job" },
         some "failed to assign process to job")
      else
        let result : Result := { ExecutionTime := env.elapsed }
        let result := if env.deadlineExceeded then
            { result with TimedOut := true, Error := some "execution timeout exceeded" }
          else result
        let result := if env.processStateNonNil then
            { result with ExitCode := env.exitCode }
          else result
        (s1, result, none)

/-- External effects a Cleanup body performs. -/
inductive CleanupAction where
  | removeAll (path : String)
  | terminateJobObject (handle : Nat)
  | closeHandle (handle : Nat)
deriving DecidableEq, Repr

/-- Embeds LinuxSandbox.Cleanup (src/sandbox_linux.go lines 198-204):
removes the cgroup directory when a path was recorded, discarding the
RemoveAll error, and always returns nil. -/
def linuxCleanup (cgroupPath : String) : List CleanupAction × Option String :=
  (if cgroupPath != "" then [CleanupAction.removeAll cgroupPath] else [], none)

/-- Embeds WindowsSandbox.Cleanup (src/sandbox_windows.go lines 226-235):
when a handle is set, terminates the job, closes the handle and zeroes the
field; always returns nil. -/
def winCleanup (s : WinState) : WinState × List CleanupAction × Option String :=
  if s.jobHandle ≠ 0 then
    ({ jobHandle := 0, openHandles := s.openHandles.erase s.jobHandle },
     [CleanupAction.terminateJobObject s.jobHandle, CleanupAction.closeHandle s.jobHandle],
     none)
  else (s, [], none)

/-- Embeds DefaultSandbox.Cleanup (darwin/POSIX fallback file lines
146-149): no resources, always returns nil. -/
def defaultCleanup : List CleanupAction × Option String := ([], none)

/-- Splits a character list on a separator character; the result always
has one more element than the number of separators. -/
def splitOnChar (sep : Char) : List Char → List (List Char)
  | [] => [[]]
  | c :: rest =>
    let r := splitOnChar sep rest
    if c = sep then [] :: r
    else
      match r with
      | [] => [[c]]
      | w :: ws => (c :: w) :: ws

/-- Parses a nonempty all-digit character list as a decimal Nat. -/
def parseNatChars (cs : List Char) : Option Nat :=
  match cs with
  | [] => none
  | _ =>
    cs.foldl
      (fun acc c =>
        match acc with
        | some n => if c.isDigit then some (n * 10 + (c.toNat - 48)) else none
        | none => none)
      (some 0)

/-- Reads the oom_kill event counter out of a cgroup v2 memory.events
content, following the spec words rather than the source: the file is
lines of the form "key value"; the counter is the value on the oom_kill
line, none when no such line parses. -/
def oomKillCounter (data : String) : Option Nat :=
  (splitOnChar (Char.ofNat 10) data.toList).foldr
    (fun line acc =>
      match splitOnChar (Char.ofNat 32) line with
      | [k, v] => if k = "oom_kill".toList then parseNatChars v else acc
      | _ => acc)
    none

/-- Specification-side criterion for the memory-exceeded flag on the Linux
path: the oom_kill counter is present and greater than zero.  Compared
against the substring test the source performs in linuxRun. -/
def specOomKillOccurred (data : String) : Bool := (oomKillCounter data).getD 0 > 0

/-! Helper lemmas shared by the claims about configuration resolution. -/

/-- Characterization of the Linux defaulting block as a single record
update: each of the four limit fields is defaulted exactly when zero, the
other fields are untouched. -/
theorem resolveLinuxConfig_eq (c : Config) :
    resolveLinuxConfig c =
      { c with
        CPULimit := if c.CPULimit = 0 then 100 else c.CPULimit,
        MemoryLimit := if c.MemoryLimit = 0 then 512 * 1024 * 1024 else c.MemoryLimit,
        Timeout := if c.Timeout = 0 then thirtySeconds else c.Timeout,
        MaxProcesses := if c.MaxProcesses = 0 then 50 else c.MaxProcesses } := by
  unfold resolveLinuxConfig
  by_cases h1 : c.CPULimit = 0 <;> by_cases h2 : c.MemoryLimit = 0 <;>
    by_cases h3 : c.Timeout = 0 <;> by_cases h4 : c.MaxProcesses = 0 <;>
    simp [h1, h2, h3, h4]

/-- The Windows defaulting block is the same function as the Linux one. -/
theorem resolveWindowsConfig_eq_linux : resolveWindowsConfig = resolveLinuxConfig := rfl

/-- The POSIX fallback defaulting block is the same function as the Linux
one. -/
theorem resolveDefaultConfig_eq_linux : resolveDefaultConfig = resolveLinuxConfig := rfl

/-- Defaulting contract of one platform constructor: zero limit fields get
the documented defaults, non-zero limit fields and all other fields pass
through unchanged. -/
def defaultsApplied (resolve : Config → Config) : Prop :=
  ∀ c : Config,
    (c.CPULimit = 0 → (resolve c).CPULimit = 100) ∧
    (c.CPULimit ≠ 0 → (resolve c).CPULimit = c.CPULimit) ∧
    (c.MemoryLimit = 0 → (resolve c).MemoryLimit = 536870912) ∧
    (c.MemoryLimit ≠ 0 → (resolve c).MemoryLimit = c.MemoryLimit) ∧
    (c.Timeout = 0 → (resolve c).Timeout = 30 * 1000000000) ∧
    (c.Timeout ≠ 0 → (resolve c).Timeout = c.Timeout) ∧
    (c.MaxProcesses = 0 → (resolve c).MaxProcesses = 50) ∧
    (c.MaxProcesses ≠ 0 → (resolve c).MaxProcesses = c.MaxProcesses) ∧
    (resolve c).WorkingDir = c.WorkingDir ∧
    (resolve c).AllowedDirs = c.AllowedDirs ∧
    (resolve c).ReadOnlyDirs = c.ReadOnlyDirs ∧
    (resolve c).Env = c.Env ∧
    (resolve c).Stdin = c.Stdin ∧
    (resolve c).Stdout = c.Stdout ∧
    (resolve c).Stderr = c.Stderr ∧
    (resolve c).NetworkAccess = c.NetworkAccess

/-- The Linux defaulting block satisfies the defaulting contract. -/
theorem defaultsApplied_resolveLinuxConfig : defaultsApplied resolveLinuxConfig := by
  intro c
  refine ⟨fun h => ?_, fun h => ?_, fun h => ?_, fun h => ?_, fun h => ?_, fun h => ?_,
    fun h => ?_, fun h => ?_, ?_, ?_, ?_, ?_, ?_, ?_, ?_, ?_⟩ <;>
    simp [resolveLinuxConfig_eq, thirtySeconds, *]

/-- C5: for every limit-specification field left at its zero value,
construction on each of the three platforms substitutes exactly the
documented default (CPU limit 100, memory limit 536870912 bytes, timeout
30 seconds, max processes 50) and leaves every non-zero field, and every
non-limit field, unchanged. -/
theorem C5_construction_defaults :
    defaultsApplied resolveLinuxConfig ∧ defaultsApplied resolveWindowsConfig ∧
      defaultsApplied resolveDefaultConfig :=
  ⟨defaultsApplied_resolveLinuxConfig,
   resolveWindowsConfig_eq_linux ▸ defaultsApplied_resolveLinuxConfig,
   resolveDefaultConfig_eq_linux ▸ defaultsApplied_resolveLinuxConfig⟩

/-- Witness for C5: the defaulting theorem applied at the all-zero
specification and at a specification with CPU limit 50, discharging the
zero and non-zero hypotheses there. -/
theorem C5_construction_defaults_witness :
    (resolveLinuxConfig Config.zero).CPULimit = 100 ∧
      (resolveLinuxConfig { Config.zero with CPULimit := 50 }).CPULimit = 50 ∧
      (resolveWindowsConfig Config.zero).MemoryLimit = 536870912 ∧
      (resolveDefaultConfig Config.zero).Timeout = 30 * 1000000000 :=
  ⟨(C5_construction_defaults.1 Config.zero).1 rfl,
   (C5_construction_defaults.1 { Config.zero with CPULimit := 50 }).2.1 (by decide),
   (C5_construction_defaults.2.1 Config.zero).2.2.1 rfl,
   (C5_construction_defaults.2.2 Config.zero).2.2.2.2.1 rfl⟩

/-- Bounds the spec asserts of every resolved configuration. -/
def resolvedBounds (r : Config) : Prop :=
  1 ≤ r.CPULimit ∧ r.CPULimit ≤ 100 ∧ 0 < r.MemoryLimit ∧ 0 < r.Timeout ∧ 0 < r.MaxProcesses

/-- Limit specification with a negative CPU limit, which the defaulting
blocks pass through unchanged. -/
def negCpuConfig : Config := { Config.zero with CPULimit := -5 }

/-- C4 counterexample: the specification with CPU limit -5 resolves, on
the Linux constructor, to a configuration whose CPU limit is still -5 and
so violates the claimed bound CPU limit in [1,100]. -/
theorem C4_counterexample :
    (NewLinuxSandbox (some negCpuConfig)).storedConfig.CPULimit = -5 ∧
      ¬ resolvedBounds (NewLinuxSandbox (some negCpuConfig)).storedConfig := by
  refine ⟨by decide, fun h => ?_⟩
  have h1 := h.1
  revert h1
  decide

/-- C4 amended: for every caller-supplied limit specification whose set
fields are themselves in range (CPU limit in [0,100], other limit fields
nonnegative) — including the null specification — the configuration
resolved at construction on each platform satisfies CPU limit in [1,100],
memory limit > 0, timeout > 0 and max processes > 0. -/
theorem C4_resolution_bounds (oc : Option Config)
    (h : ∀ c, oc = some c →
      0 ≤ c.CPULimit ∧ c.CPULimit ≤ 100 ∧ 0 ≤ c.MemoryLimit ∧ 0 ≤ c.Timeout ∧
        0 ≤ c.MaxProcesses) :
    resolvedBounds (NewLinuxSandbox oc).storedConfig ∧
      resolvedBounds (NewWindowsSandbox oc).storedConfig ∧
      resolvedBounds (NewDefaultSandbox oc).storedConfig := by
  have key : ∀ c : Config,
      0 ≤ c.CPULimit → c.CPULimit ≤ 100 → 0 ≤ c.MemoryLimit → 0 ≤ c.Timeout →
        0 ≤ c.MaxProcesses → resolvedBounds (resolveLinuxConfig c) := by
    intro c h1 h2 h3 h4 h5
    rw [resolvedBounds, resolveLinuxConfig_eq]
    refine ⟨?_, ?_, ?_, ?_, ?_⟩ <;> simp [thirtySeconds] <;> split_ifs <;> omega
  match oc with
  | none =>
    refine ⟨?_, ?_, ?_⟩ <;>
      simp only [NewLinuxSandbox, NewWindowsSandbox, NewDefaultSandbox, Option.getD,
        resolveWindowsConfig_eq_linux, resolveDefaultConfig_eq_linux] <;>
      exact key Config.zero (by decide) (by decide) (by decide) (by decide) (by decide)
  | some c =>
    obtain ⟨h1, h2, h3, h4, h5⟩ := h c rfl
    refine ⟨?_, ?_, ?_⟩ <;>
      simp only [NewLinuxSandbox, NewWindowsSandbox, NewDefaultSandbox, Option.getD,
        resolveWindowsConfig_eq_linux, resolveDefaultConfig_eq_linux] <;>
      exact key c h1 h2 h3 h4 h5

/-- In-range specification used to instantiate hypothesis-bearing
theorems. -/
def inRangeConfig : Config :=
  { Config.zero with CPULimit := 50, MemoryLimit := 1024, Timeout := 7, MaxProcesses := 3 }

/-- Witness for C4: the amended theorem applied at a concrete in-range
specification. -/
theorem C4_resolution_bounds_witness :
    resolvedBounds (NewLinuxSandbox (some inRangeConfig)).storedConfig ∧
      resolvedBounds (NewWindowsSandbox (some inRangeConfig)).storedConfig ∧
      resolvedBounds (NewDefaultSandbox (some inRangeConfig)).storedConfig := by
  apply C4_resolution_bounds
  intro c hc
  injection hc with h
  subst h
  decide

/-- C9 counterexample: constructing from the all-zero specification
rewrites the caller-supplied object in place (its CPU limit becomes 100),
so resolution is not free of side effects on the caller object. -/
theorem C9_counterexample :
    (NewLinuxSandbox (some Config.zero)).callerConfig ≠ some Config.zero := by decide

/-- C9 amended: construction writes the resolved defaults back into the
caller-supplied specification object in place — after the call the caller
object holds exactly the resolved configuration — and a specification
whose four limit fields are all non-zero is left byte-for-byte
unchanged. -/
theorem C9_caller_config_mutation (c : Config) :
    ((NewLinuxSandbox (some c)).callerConfig = some (resolveLinuxConfig c) ∧
     (NewWindowsSandbox (some c)).callerConfig = some (resolveWindowsConfig c) ∧
     (NewDefaultSandbox (some c)).callerConfig = some (resolveDefaultConfig c)) ∧
    (c.CPULimit ≠ 0 → c.MemoryLimit ≠ 0 → c.Timeout ≠ 0 → c.MaxProcesses ≠ 0 →
      (NewLinuxSandbox (some c)).callerConfig = some c ∧
      (NewWindowsSandbox (some c)).callerConfig = some c ∧
      (NewDefaultSandbox (some c)).callerConfig = some c) := by
  refine ⟨⟨rfl, rfl, rfl⟩, fun h1 h2 h3 h4 => ?_⟩
  have hfix : resolveLinuxConfig c = c := by
    rw [resolveLinuxConfig_eq]
    simp [h1, h2, h3, h4]
  refine ⟨?_, ?_, ?_⟩ <;>
    simp only [NewLinuxSandbox, NewWindowsSandbox, NewDefaultSandbox,
      resolveWindowsConfig_eq_linux, resolveDefaultConfig_eq_linux, Option.map, hfix]

/-- Witness for C9: the amended theorem applied at a fully specified
(non-zero) configuration. -/
theorem C9_caller_config_mutation_witness :
    (NewLinuxSandbox (some inRangeConfig)).callerConfig = some (resolveLinuxConfig inRangeConfig) ∧
      (NewLinuxSandbox (some inRangeConfig)).callerConfig = some inRangeConfig := by
  have h := C9_caller_config_mutation inRangeConfig
  exact ⟨h.1.1, (h.2 (by decide) (by decide) (by decide) (by decide)).1⟩

/-! Claims about the Run bodies and Cleanup. -/

/-- Linux Run environment in which the child spawned and the deadline
expired. -/
def timeoutLinuxEnv : LinuxRunEnv :=
  { useCgroupV2 := false, pid := 1, mkdirOk := false, startErr := none, elapsed := 2,
    deadlineExceeded := true, processStateNonNil := true, waitErr := WaitErr.otherErr,
    memoryEvents := none }

/-- POSIX fallback Run environment in which the child spawned, the
deadline expired, and the wait reported a SIGKILL termination. -/
def timeoutDefaultEnv : DefaultRunEnv :=
  { startErr := none, elapsed := 2, deadlineExceeded := true, processStateNonNil := true,
    exitCode := -1, sysWaitStatus := some { signaled := true, signal := 9 } }

/-- C1 counterexample: on a timeout the Linux and POSIX Run bodies set the
timed-out flag but also populate the Result error field, so the error
field is not empty on timeout as the claim states. -/
theorem C1_counterexample :
    (linuxRun Config.zero timeoutLinuxEnv).1.TimedOut = true ∧
      (linuxRun Config.zero timeoutLinuxEnv).1.Error ≠ none ∧
      (defaultRun Config.zero timeoutDefaultEnv).1.TimedOut = true ∧
      (defaultRun Config.zero timeoutDefaultEnv).1.Error ≠ none := by decide

/-- C1 amended: on every platform, when the child spawned successfully and
the configured timeout expired, the returned Result has timed-out = true
and its error field populated with the timeout message "execution timeout
exceeded"; the error return value of Run itself stays nil in this case. -/
theorem C1_timeout_classification :
    (∀ (c : Config) (env : LinuxRunEnv), env.startErr = none → env.deadlineExceeded = true →
      (linuxRun c env).1.TimedOut = true ∧
        (linuxRun c env).1.Error = some "execution timeout exceeded" ∧
        (linuxRun c env).2 = none) ∧
    (∀ (c : Config) (env : DefaultRunEnv), env.startErr = none → env.deadlineExceeded = true →
      (defaultRun c env).1.TimedOut = true ∧
        (defaultRun c env).1.Error = some "execution timeout exceeded" ∧
        (defaultRun c env).2 = none) ∧
    (∀ (c : Config) (s : WinState) (env : WinRunEnv), env.createRet ≠ 0 →
      env.setInfoOk = true → env.startErr = none → env.assignOk = true →
      env.deadlineExceeded = true →
      (winRun c s env).2.1.TimedOut = true ∧
        (winRun c s env).2.1.Error = some "execution timeout exceeded" ∧
        (winRun c s env).2.2 = none) := by
  refine ⟨fun c env h1 h2 => ?_, fun c env h1 h2 => ?_,
    fun c s env h0 hs h1 ha h2 => ?_⟩
  · simp only [linuxRun, h1, h2]
    cases hps : env.processStateNonNil <;> cases hwe : env.waitErr <;>
      cases hme : env.memoryEvents <;>
      simp <;> split_ifs <;> simp
  · simp only [defaultRun, h1, h2]
    cases hps : env.processStateNonNil <;> cases hws : env.sysWaitStatus <;> simp
  · simp only [winRun, winCreateJobObject, if_neg h0, hs, if_true, h1, ha, h2]
    cases hps : env.processStateNonNil <;> simp

/-- Witness for C1: the amended theorem applied at the concrete timeout
environments above (job handle 5 on the Windows instance). -/
theorem C1_timeout_classification_witness :
    (linuxRun Config.zero timeoutLinuxEnv).1.TimedOut = true ∧
      (linuxRun Config.zero timeoutLinuxEnv).1.Error = some "execution timeout exceeded" ∧
      (defaultRun Config.zero timeoutDefaultEnv).1.TimedOut = true ∧
      (winRun Config.zero WinState.init
          { createRet := 5, setInfoOk := true, startErr := none, assignOk := true,
            elapsed := 2, deadlineExceeded := true, processStateNonNil := true,
            exitCode := -1 }).2.1.TimedOut = true := by
  refine ⟨(C1_timeout_classification.1 Config.zero timeoutLinuxEnv rfl rfl).1,
    (C1_timeout_classification.1 Config.zero timeoutLinuxEnv rfl rfl).2.1,
    (C1_timeout_classification.2.1 Config.zero timeoutDefaultEnv rfl rfl).1,
    (C1_timeout_classification.2.2 Config.zero WinState.init _ (by decide) rfl rfl rfl rfl).1⟩

/-- Content of a cgroup v2 memory.events file after a run in which no
out-of-memory kill happened: every event counter, including oom_kill, is
zero. -/
def oomZeroEvents : String := "low 0\nhigh 0\nmax 0\noom 0\noom_kill 0"

/-- Linux Run environment in which the cgroup was created and the
memory.events read returns the all-zero counters above. -/
def oomZeroEnv : LinuxRunEnv :=
  { useCgroupV2 := true, pid := 1234, mkdirOk := true, startErr := none, elapsed := 5,
    deadlineExceeded := false, processStateNonNil := true, waitErr := WaitErr.ok,
    memoryEvents := some oomZeroEvents }

/-- C2: the Linux Run body tests for the substring "oom_kill" in
memory.events, and the file format always carries an oom_kill line; with
the counter present but zero the code still sets memory-exceeded, while
the spec-side reading of the counter says no out-of-memory kill
occurred. -/
theorem C2_oom_substring_bug :
    (linuxRun (resolveLinuxConfig Config.zero) oomZeroEnv).1.MemoryExceeded = true ∧
      oomKillCounter oomZeroEvents = some 0 ∧
      specOomKillOccurred oomZeroEvents = false := by decide

/-- Windows Run environment of one fully successful call whose job object
got the given handle value. -/
def winOkEnv (h : Nat) : WinRunEnv :=
  { createRet := h, setInfoOk := true, startErr := none, assignOk := true, elapsed := 1,
    deadlineExceeded := false, processStateNonNil := true, exitCode := 0 }

/-- C3: two successful Run calls on one WindowsSandbox instance before any
Cleanup leave two job-object handles open at once — the second Run
overwrites the jobHandle field without closing the first handle — and the
following Cleanup closes only the second, so the first is silently
leaked. -/
theorem C3_second_run_leaks_handle :
    (winRun Config.zero (winRun Config.zero WinState.init (winOkEnv 1)).1
        (winOkEnv 2)).1.openHandles = [2, 1] ∧
      (winRun Config.zero (winRun Config.zero WinState.init (winOkEnv 1)).1
          (winOkEnv 2)).1.jobHandle = 2 ∧
      (winCleanup (winRun Config.zero (winRun Config.zero WinState.init (winOkEnv 1)).1
          (winOkEnv 2)).1).1.openHandles = [1] := by decide

/-- C6: Cleanup returns a nil error from every sandbox state on every
platform — whatever sequence of Run and Cleanup calls produced that state,
including the fresh state where Run never ran and states where Cleanup
already ran. -/
theorem C6_cleanup_never_errors :
    (∀ cgroupPath : String, (linuxCleanup cgroupPath).2 = none) ∧
      (∀ s : WinState, (winCleanup s).2.2 = none) ∧
      defaultCleanup.2 = none := by
  refine ⟨fun p => rfl, fun s => ?_, rfl⟩
  simp only [winCleanup]
  split <;> rfl

/-- Witness for C6: the Cleanup theorem applied at a fresh Linux path, at
the fresh Windows state, and at the Windows state left by a successful
Run. -/
theorem C6_cleanup_never_errors_witness :
    (linuxCleanup "").2 = none ∧ (winCleanup WinState.init).2.2 = none ∧
      (winCleanup (winRun Config.zero WinState.init (winOkEnv 1)).1).2.2 = none :=
  ⟨C6_cleanup_never_errors.1 "", C6_cleanup_never_errors.2.1 WinState.init,
   C6_cleanup_never_errors.2.1 (winRun Config.zero WinState.init (winOkEnv 1)).1⟩

/-- C7: on the POSIX fallback path, when the child spawned, the wait
produced a process state, and the wait status reports termination by
SIGKILL, the memory-exceeded flag equals the negation of the timed-out
flag: set when the kill is not attributed to the sandbox timeout, clear
when it is. -/
theorem C7_sigkill_heuristic (c : Config) (env : DefaultRunEnv) (ws : WaitStatus)
    (hstart : env.startErr = none) (hps : env.processStateNonNil = true)
    (hws : env.sysWaitStatus = some ws) (hsig : ws.signaled = true)
    (hkill : ws.signal = SIGKILL) :
    (defaultRun c env).1.MemoryExceeded = !(defaultRun c env).1.TimedOut ∧
      (defaultRun c env).1.TimedOut = env.deadlineExceeded := by
  simp only [defaultRun, hstart, hps, hws, hsig, hkill]
  cases hd : env.deadlineExceeded <;> simp [SIGKILL]

/-- Witness for C7: the theorem applied at the concrete SIGKILL timeout
environment, and at its non-timeout variant. -/
theorem C7_sigkill_heuristic_witness :
    (defaultRun Config.zero timeoutDefaultEnv).1.MemoryExceeded =
        !(defaultRun Config.zero timeoutDefaultEnv).1.TimedOut ∧
      (defaultRun Config.zero { timeoutDefaultEnv with deadlineExceeded := false
        }).1.MemoryExceeded = true := by
  refine ⟨(C7_sigkill_heuristic Config.zero timeoutDefaultEnv
      { signaled := true, signal := 9 } rfl rfl rfl rfl rfl).1, ?_⟩
  have h := (C7_sigkill_heuristic Config.zero
    { timeoutDefaultEnv with deadlineExceeded := false }
    { signaled := true, signal := 9 } rfl rfl rfl rfl rfl).1
  rw [h]
  decide

/-- Fully defaulted configuration: CPU limit 100, memory 512 MiB, timeout
30 s, max processes 50. -/
def fullCpuConfig : Config := resolveLinuxConfig Config.zero

/-- Cgroup setup environment in which cgroup v2 is mounted and the
directory creation succeeds. -/
def cgroupEnv : CgroupSetupEnv := { useCgroupV2 := true, pid := 7, mkdirOk := true }

/-- C8 counterexample: the fully defaulted configuration has CPU limit 100,
inside the claimed range [1,100], yet setupCgroup writes only the memory
and pids files — no CPU quota write happens at CPU limit 100 because the
source guards the write with CPULimit < 100. -/
theorem C8_counterexample :
    1 ≤ fullCpuConfig.CPULimit ∧ fullCpuConfig.CPULimit ≤ 100 ∧
      0 < fullCpuConfig.MemoryLimit ∧ 0 < fullCpuConfig.MaxProcesses ∧
      (setupCgroup fullCpuConfig cgroupEnv).2 =
        [CgroupWrite.memoryMax 536870912, CgroupWrite.pidsMax 50] ∧
      CgroupWrite.cpuMax (100 * 1000) 100000 ∉ (setupCgroup fullCpuConfig cgroupEnv).2 := by
  decide

/-- C8 amended: on the Linux cgroup path with the cgroup directory
created, for every configuration with CPU limit in [1,100], memory
limit > 0 and max processes > 0, the memory ceiling and the process-count
ceiling are written, and the CPU quota is written as exactly
CPULimit × 1000 microseconds per 100000-microsecond period when the CPU
limit is in [1,100); at CPU limit 100 no CPU quota is written. -/
theorem C8_cgroup_writes (c : Config) (env : CgroupSetupEnv)
    (hcg : env.useCgroupV2 = true) (hmk : env.mkdirOk = true)
    (h1 : 1 ≤ c.CPULimit) (h2 : c.CPULimit ≤ 100) (h3 : 0 < c.MemoryLimit)
    (h4 : 0 < c.MaxProcesses) :
    (setupCgroup c env).2 =
      CgroupWrite.memoryMax c.MemoryLimit ::
        ((if c.CPULimit < 100 then [CgroupWrite.cpuMax (c.CPULimit * 1000) 100000] else []) ++
          [CgroupWrite.pidsMax c.MaxProcesses]) := by
  have hw : wrap64 (c.CPULimit * 1000) = c.CPULimit * 1000 := by
    unfold wrap64
    omega
  have h0 : c.CPULimit > 0 := by omega
  by_cases hlt : c.CPULimit < 100 <;>
    simp [setupCgroup, hcg, hmk, h0, h3, h4, hlt, hw]

/-- Witness for C8: the amended theorem applied at the in-range
configuration with CPU limit 50. -/
theorem C8_cgroup_writes_witness :
    (setupCgroup inRangeConfig cgroupEnv).2 =
      [CgroupWrite.memoryMax 1024, CgroupWrite.cpuMax 50000 100000,
       CgroupWrite.pidsMax 3] := by
  have h := C8_cgroup_writes inRangeConfig cgroupEnv rfl rfl (by decide) (by decide)
    (by decide) (by decide)
  rw [h]
  decide

/-- C10: on the Linux and POSIX paths, whenever the child spawned
successfully, the error value returned by Run is nil — every later
condition is conveyed only through the Result fields. -/
theorem C10_post_spawn_nil_error :
    (∀ (c : Config) (env : LinuxRunEnv), env.startErr = none → (linuxRun c env).2 = none) ∧
      (∀ (c : Config) (env : DefaultRunEnv), env.startErr = none →
        (defaultRun c env).2 = none) := by
  refine ⟨fun c env h => ?_, fun c env h => ?_⟩ <;> simp [linuxRun, defaultRun, h]

/-- Witness for C10: the theorem applied at two concrete post-spawn
environments, one of which timed out and one of which saw an OOM read. -/
theorem C10_post_spawn_nil_error_witness :
    (linuxRun Config.zero oomZeroEnv).2 = none ∧
      (defaultRun Config.zero timeoutDefaultEnv).2 = none :=
  ⟨C10_post_spawn_nil_error.1 Config.zero oomZeroEnv rfl,
   C10_post_spawn_nil_error.2 Config.zero timeoutDefaultEnv rfl⟩

end GoProcSandbox
